import Mathlib

/-!
Verification of `sanity_research_utils` (experiment-coordination helpers).

Shallow embedding of the code in `sanity_utils/build_experiment_program.py`
and `sanity_utils/mpi_utils.py`:

* pure computations (column construction, filename checks, numeric-suffix
  fallback) become Lean functions on `List String` / `List Char`;
* filesystem state becomes an explicit association list from paths to
  entries, threaded through the operations;
* the MPI group becomes `Fin n`-indexed outcome functions; `broadcast`
  replaces every rank's value with rank 0's value;
* fallible Python code returns `Except PyErr _`.
-/

/-- The Python exceptions the modelled code can raise.  `fileExists` carries
the exception message (the code formats the offending path into it). -/
inductive PyErr
  | valueError
  | typeError
  | fileExists (msg : String)
deriving DecidableEq, Repr

/-- One entry of `argument_mappings`: `(parsed_arg, column, include_in_exp_desc)`.
`column` is `str or None`; `include_in_exp_desc` is a `bool` or a callable
(`Sum.inl b` for the bool `b`, `Sum.inr f` for a callable, which Python treats
as truthy).  `V` is the type of parsed argument values. -/
structure ArgMapping (V : Type) where
  arg : String
  column : Option String
  expDesc : Sum Bool (V → String)

/-- `DEFAULT_LOG_FILE_NAME = "log.txt"` (filenames are modelled as `List Char`
so Python slicing is plain list arithmetic). -/
def DEFAULT_LOG_FILE_NAME : List Char := "log.txt".toList

/-- `DEFAULT_TABLE_FILE_NAME = "table.csv"`. -/
def DEFAULT_TABLE_FILE_NAME : List Char := "table.csv".toList

/-- Python `s[-4:]`: the last four characters, or all of `s` when it is
shorter (Nat truncation of `l.length - 4` gives exactly Python's clamping
of the negative start index to 0). -/
def pyLast4 (l : List Char) : List Char := l.drop (l.length - 4)

/-- `column for _, column, _ in argument_mappings if (column is not None)`. -/
def argColsOf {V : Type} (argumentMappings : List (ArgMapping V)) : List String :=
  argumentMappings.filterMap (fun m => m.column)

/-- `column for column in return_mappings if (column is not None)`. -/
def retColsOf (returnMappings : List (Option String)) : List String :=
  returnMappings.filterMap id

/-- The configuration handed to `build_experiment_program` (the pieces its
validation inspects; `parser` and `runner` play no part in validation). -/
structure BuildConfig (V : Type) where
  argumentMappings : List (ArgMapping V)
  returnMappings : List (Option String)
  logFileName : List Char
  tableFileName : List Char

/-- The validation prefix of `build_experiment_program`
(`build_experiment_program.py` lines 86-124), run before the wrapped runner
is constructed and before any filesystem activity: duplicate checks on the
argument columns and the return columns (`len(cols) != len(set(cols))` is
modelled by comparison with `List.dedup`), the intersection check, the
reserved-name check for `"time"`, and the two filename-extension checks.
On success it returns `columns = _arg_cols + _ret_cols + ["time"]`. -/
def build_experiment_program {V : Type} (cfg : BuildConfig V) :
    Except PyErr (List String) :=
  let argCols := argColsOf cfg.argumentMappings
  if argCols.length ≠ argCols.dedup.length then
    .error .valueError
  else
    let retCols := retColsOf cfg.returnMappings
    if retCols.length ≠ retCols.dedup.length then
      .error .valueError
    else if 0 < (argCols.inter retCols).length then
      .error .valueError
    else
      let providedCols := argCols ++ retCols
      if "time" ∈ providedCols then
        .error .valueError
      else
        let columns := providedCols ++ ["time"]
        if pyLast4 cfg.logFileName ≠ ".txt".toList then
          .error .valueError
        else if pyLast4 cfg.tableFileName ≠ ".csv".toList then
          .error .valueError
        else
          .ok columns

/-! ### Schema-mismatch filename fallback (`build_experiment_program.py` 166-189) -/

/-- Python `s[a:-b]` for non-negative `a`, `b`: drop the last `b` characters,
then drop the first `a`. -/
def pySlice (s : List Char) (a b : Nat) : List Char :=
  (s.take (s.length - b)).drop a

/-- `s[len(result_csv_path)-4:-4]`: the slice the fallback code takes of each
glob match `s` (note the start index `len(result_csv_path)-4` is the position
of the underscore, so the slice begins with the `'_'` character). -/
def sliceSuffix (resultCsvPath s : List Char) : List Char :=
  pySlice s (resultCsvPath.length - 4) 4

/-- No two adjacent underscores (part of Python's `int()` literal grammar). -/
def noDoubleUnderscore : List Char → Bool
  | c₁ :: c₂ :: rest =>
      (!(c₁ = '_' && c₂ = '_')) && noDoubleUnderscore (c₂ :: rest)
  | _ => true

/-- Whether `int()` accepts the (unsigned) literal: non-empty, every
character a digit or `'_'`, first and last characters digits, and no two
adjacent underscores (PEP 515: underscores only *between* digits; a leading
underscore such as in `"_2"` is rejected with `ValueError`). -/
def pyIntValid (l : List Char) : Bool :=
  (!l.isEmpty)
    && l.all (fun c => c.isDigit || c = '_')
    && (l.head?.elim false Char.isDigit)
    && (l.getLast?.elim false Char.isDigit)
    && noDoubleUnderscore l

/-- Numeric value of a valid literal: fold over the digits, ignoring the
grouping underscores. -/
def pyIntVal (l : List Char) : Nat :=
  (l.filter Char.isDigit).foldl (fun acc c => 10 * acc + (c.toNat - '0'.toNat)) 0

/-- Python `int(s)` on an unsigned literal: `some` the value, or `none` for
the `ValueError` that an invalid literal raises. -/
def pyInt? (l : List Char) : Option Nat :=
  if pyIntValid l then some (pyIntVal l) else none

/-- The fallback index computation of the schema-mismatch handler
(`build_experiment_program.py` 173-181): with `csv_glob` the matches of
`result_csv_path[:-4] + "_*.csv"`, return `2` when the glob is empty and
otherwise `max(int(s[len(result_csv_path)-4:-4]) for s in csv_glob) + 1`;
an `int()` failure inside the comprehension propagates as `ValueError`. -/
def fallbackIndex (resultCsvPath : List Char) (csvGlob : List (List Char)) :
    Except PyErr Nat :=
  if csvGlob.isEmpty then
    .ok 2
  else do
    let ns ← csvGlob.mapM (fun s =>
      match pyInt? (sliceSuffix resultCsvPath s) with
      | some n => Except.ok n
      | none => Except.error PyErr.valueError)
    .ok (ns.foldl max 0 + 1)

/-- The fallback filename: `result_csv_path[:-4] + "_" + str(i) + ".csv"`. -/
def fallbackName (resultCsvPath : List Char) (i : Nat) : List Char :=
  resultCsvPath.take (resultCsvPath.length - 4) ++ ('_' :: (Nat.repr i).toList)
    ++ ".csv".toList

/-! ### Filesystem and `prepare_experiment_dir` (`mpi_utils.py` 54-87) -/

/-- A filesystem entry: a directory or a plain-text file with its content. -/
inductive FSEntry
  | dir
  | file (content : String)
deriving DecidableEq, Repr

/-- The filesystem as an association list from paths to entries; a later
write shadows an earlier entry, and lookups take the most recent one. -/
abbrev FS := List (String × FSEntry)

/-- `os.path.exists(p)` over the modelled filesystem. -/
def fsExists (fs : FS) (p : String) : Bool :=
  fs.any (fun e => e.1 = p)

/-- `os.makedirs(p)` (creation of intermediate parents is abstracted away:
the modelled code only ever queries existence of the path it created). -/
def fsMkdir (fs : FS) (p : String) : FS := (p, .dir) :: fs

/-- Writing a whole text file, as `open(p, "w")` followed by `fd.write`. -/
def fsWrite (fs : FS) (p : String) (content : String) : FS :=
  (p, .file content) :: fs

/-- `os.path.join(a, b)` for a relative second component. -/
def pyPathJoin (a b : String) : String := a ++ "/" ++ b

/-- `prepare_experiment_dir(result_dir, *args)` run by the whole group of `n`
processes: rank 0 computes `output_dir = result_dir / "-".join(args)`, checks
its existence and creates it when absent; the existence boolean is broadcast,
after which every rank raises `FileExistsError` (with the message formatted
from `output_dir`) when it was true, and otherwise returns `output_dir`.
The returned pair is the filesystem after rank 0's actions and the per-rank
outcome (identical across ranks, being a function of the broadcast value). -/
def prepare_experiment_dir (n : Nat) (fs : FS) (resultDir : String)
    (fields : List String) : FS × (Fin n → Except PyErr String) :=
  let basename := String.intercalate "-" fields
  let outputDir := pyPathJoin resultDir basename
  let shouldAbort := fsExists fs outputDir
  let fs' := if shouldAbort then fs else fsMkdir fs outputDir
  (fs', fun _ =>
    if shouldAbort then
      .error (.fileExists (outputDir ++ " already exists - cannot proceed safely"))
    else
      .ok outputDir)

/-! ### The provisioning step of `wrapped_runner` (`build_experiment_program.py` 138-160) -/

/-- The loop building `exp_dir_fields` and `exp_dir_field_meanings`: for each
mapping whose `include_in_exp_desc` is truthy (the bool `True`, or any
callable), append the field value and the argument's name.  `args` is
`getattr(args, ·)`; `toStr` is Python `str`, applied here for the bool case
because `prepare_experiment_dir` stringifies every field anyway (a callable
already yields a string, on which `str` is the identity). -/
def expDirFields {V : Type} (mappings : List (ArgMapping V)) (args : String → V)
    (toStr : V → String) : List String × List String :=
  mappings.foldl (fun acc m =>
    match m.expDesc with
    | .inl false => acc
    | .inl true => (acc.1 ++ [toStr (args m.arg)], acc.2 ++ [m.arg])
    | .inr f => (acc.1 ++ [f (args m.arg)], acc.2 ++ [m.arg])) ([], [])

/-- The named parameters of `prepare_experiment_dir(result_dir, *args)`; the
signature has no `**kwargs` catch-all. -/
def prepare_experiment_dir_kwparams : List String := ["result_dir"]

/-- Python call binding for keyword arguments against a signature without a
`**kwargs` catch-all: a starred parameter (`*args`) absorbs no keywords, so
every keyword supplied at the call site must name a named parameter,
otherwise the call raises `TypeError: unexpected keyword argument`. -/
def pyCallKwargsOk (namedParams : List String) (kwargs : List String) : Bool :=
  kwargs.all (fun k => namedParams.contains k)

/-- The directory-provisioning step of `wrapped_runner`
(`build_experiment_program.py` 138-160), seen from rank 0 of a group of one:
build the naming fields, call
`prepare_experiment_dir(args.results, *exp_dir_fields, overwrite=args.overwrite)`
— a call supplying the keyword `overwrite` — and, on success, write the
`field_meanings.txt` manifest (`"\n".join(exp_dir_field_meanings)`) into the
experiment directory, returning the updated filesystem and the directory. -/
def wrapped_runner_provision {V : Type} (fs : FS) (resultsArg : String)
    (mappings : List (ArgMapping V)) (args : String → V) (toStr : V → String) :
    Except PyErr (FS × String) :=
  let fm := expDirFields mappings args toStr
  if pyCallKwargsOk prepare_experiment_dir_kwparams ["overwrite"] then
    let pr := prepare_experiment_dir 1 fs resultsArg fm.1
    match pr.2 0 with
    | .error e => .error e
    | .ok expDir =>
        .ok (fsWrite pr.1 (pyPathJoin expDir "field_meanings.txt")
              (String.intercalate "\n" fm.2), expDir)
  else
    .error .typeError

/-! ### `ExperimentTimer` (`mpi_utils.py` 190-232) -/

/-- MPI broadcast from rank 0: every rank receives rank 0's value. -/
def bcast {α : Type} (n : Nat) (f : Fin (n + 1) → α) : Fin (n + 1) → α :=
  fun _ => f ⟨0, Nat.succ_pos n⟩

/-- Per-rank `_start_time` after `start()`: rank 0 reads its clock (`t₁`),
every other rank stores the placeholder `0`. -/
def timerStartTimes (n : Nat) (t₁ : ℚ) : Fin (n + 1) → ℚ :=
  fun r => if r.val = 0 then t₁ else 0

/-- Per-rank `_end_time` after `end()` reads the clock: rank 0 reads `t₂`,
every other rank stores the placeholder `0`. -/
def timerEndTimes (n : Nat) (t₂ : ℚ) : Fin (n + 1) → ℚ :=
  fun r => if r.val = 0 then t₂ else 0

/-- The value `end()` returns on each rank: every rank computes
`total_time = self._end_time - self._start_time` locally, then
`total_time = _comm.bcast(total_time, root=0)` replaces it with rank 0's. -/
def timerEnd (n : Nat) (t₁ t₂ : ℚ) : Fin (n + 1) → ℚ :=
  bcast n (fun r => timerEndTimes n t₂ r - timerStartTimes n t₁ r)

/-! ### `ResultsCSV` (`mpi_utils.py` 129-187), as seen on rank 0
(on every other rank all three operations are rank-guarded no-ops). -/

/-- The in-memory `pandas.DataFrame`: an ordered column list and the rows. -/
structure Table (V : Type) where
  columns : List String
  rows : List (List V)
deriving DecidableEq, Repr

/-- The filesystem of persisted tables: an association list from csv paths
to tables, a later write shadowing an earlier one. -/
abbrev CsvFS (V : Type) := List (String × Table V)

/-- `os.path.exists` + `pd.read_csv(csv_path, index_col=0)` combined: the
most recently written table at the path, when one exists. -/
def csvRead? {V : Type} (fs : CsvFS V) (p : String) : Option (Table V) :=
  (fs.find? (fun e => e.1 = p)).map (fun e => e.2)

/-- `df.to_csv(p)` over the modelled filesystem. -/
def csvWrite {V : Type} (fs : CsvFS V) (p : String) (t : Table V) : CsvFS V :=
  (p, t) :: fs

/-- `ResultsCSV.__init__(csv_path, columns)` on rank 0: when the path exists,
read the table and require its column list to equal `columns` exactly
(else `ValueError`), touching the filesystem only by the read; when it does
not exist, create an empty table with `columns` and persist it immediately
(parent-directory creation is abstracted into the write). -/
def ResultsCSV.init {V : Type} (fs : CsvFS V) (csvPath : String)
    (columns : List String) : Except PyErr (CsvFS V × Table V) :=
  match csvRead? fs csvPath with
  | some df =>
      if df.columns = columns then .ok (fs, df)
      else .error .valueError
  | none =>
      let df : Table V := ⟨columns, []⟩
      .ok (csvWrite fs csvPath df, df)

/-- `ResultsCSV.add_row(row)` on rank 0: `self.df.loc[self.df.shape[0]] = row`
appends the row in memory; pandas raises `ValueError` when the row's length
differs from the column count. -/
def ResultsCSV.add_row {V : Type} (df : Table V) (row : List V) :
    Except PyErr (Table V) :=
  if row.length = df.columns.length then
    .ok ⟨df.columns, df.rows ++ [row]⟩
  else
    .error .valueError

/-- `ResultsCSV.save()` on rank 0: persist the in-memory table to its path. -/
def ResultsCSV.save {V : Type} (fs : CsvFS V) (csvPath : String) (df : Table V) :
    CsvFS V :=
  csvWrite fs csvPath df

/-- `add_row` iterated over a list of rows. -/
def addRows {V : Type} (df : Table V) (rows : List (List V)) :
    Except PyErr (Table V) :=
  rows.foldlM ResultsCSV.add_row df

/-! ### The results row of `wrapped_runner` (`build_experiment_program.py` 196-229) -/

/-- The `arg_info` loop: `for arg, column, _ in argument_mappings:
arg_info.append(getattr(args, arg))` — it appends the value of *every*
mapping, including those whose `column` is `None`. -/
def argInfo {V : Type} (mappings : List (ArgMapping V)) (args : String → V) :
    List V :=
  mappings.map (fun m => args m.arg)

/-- The `ret_info` loop: for each `return_mappings` entry paired with the
runner's return tuple, keep `ret[c_i]` exactly when the column is not `None`. -/
def retInfo {V : Type} (returnMappings : List (Option String)) (ret : List V) :
    List V :=
  (returnMappings.zip ret).filterMap (fun p => p.1.map (fun _ => p.2))

/-- The row `wrapped_runner` passes to `csv.add_row`:
`arg_info + ret_info + [float(total_time)]`. -/
def wrappedRunnerRow {V : Type} (mappings : List (ArgMapping V))
    (returnMappings : List (Option String)) (args : String → V) (ret : List V)
    (totalTime : V) : List V :=
  argInfo mappings args ++ retInfo returnMappings ret ++ [totalTime]

/-- Modelled from the spec (for comparison with `wrappedRunnerRow`): the row
the specification describes, `inputValues ++ selectedOutputs ++ [elapsedTime]`,
where `inputValues` are the values of exactly those arguments whose mapping
names a table column. -/
def specRow {V : Type} (mappings : List (ArgMapping V))
    (returnMappings : List (Option String)) (args : String → V) (ret : List V)
    (totalTime : V) : List V :=
  mappings.filterMap (fun m => m.column.map (fun _ => args m.arg))
    ++ retInfo returnMappings ret ++ [totalTime]

/-! ## Theorems -/

/-- **C1** (code bug).  The claim says the appended row consists of the
values of exactly those arguments whose mapping names a table column,
followed by the selected outputs and the elapsed time, with row arity equal
to the declared schema arity.  The code's `arg_info` loop instead appends
the value of *every* argument mapping: with one argument mapped to column
`None` and one output column, the code builds the row `[7, 9, 3]` of arity 3
against the declared schema `["acc", "time"]` of arity 2, `add_row` fails
with `ValueError`, and the spec's row `[9, 3]` is what would have matched. -/
theorem wrappedRunnerRow_arity_mismatch :
    wrappedRunnerRow [⟨"a", none, Sum.inl false⟩] [some "acc"]
        (fun _ => 7) [9] 3 = [7, 9, 3] ∧
    build_experiment_program
        (⟨[⟨"a", none, Sum.inl false⟩], [some "acc"],
          DEFAULT_LOG_FILE_NAME, DEFAULT_TABLE_FILE_NAME⟩ : BuildConfig ℕ)
      = .ok ["acc", "time"] ∧
    ResultsCSV.add_row (⟨["acc", "time"], []⟩ : Table ℕ) [7, 9, 3]
      = .error .valueError ∧
    specRow [⟨"a", none, Sum.inl false⟩] [some "acc"] (fun _ => (7 : ℕ)) [9] 3
      = [9, 3] := by
  exact ⟨rfl, rfl, rfl, rfl⟩

/-- **C2** (code bug).  The claim says that when the experiment directory
does not exist, the harness creates it and writes the `field_meanings.txt`
manifest before invoking the runner.  In the code, `wrapped_runner` calls
`prepare_experiment_dir(args.results, *exp_dir_fields, overwrite=args.overwrite)`,
but `prepare_experiment_dir(result_dir, *args)` accepts no `overwrite`
keyword, so every invocation raises `TypeError` at the call and neither the
directory nor the manifest is ever created. -/
theorem wrapped_runner_provision_type_error {V : Type} (fs : FS)
    (resultsArg : String) (mappings : List (ArgMapping V)) (args : String → V)
    (toStr : V → String) :
    wrapped_runner_provision fs resultsArg mappings args toStr
      = .error .typeError :=
  rfl

/-- **C3** (code bug).  The claim says the fallback index is one greater
than the largest existing numeric suffix when siblings matching
`basename_*.csv` exist.  The code's slice `s[len(result_csv_path)-4:-4]`
starts at the underscore, so for the sibling `results/table_2.csv` it yields
the string `"_2"`, which `int()` rejects (underscores may not lead a numeric
literal): the fallback raises `ValueError` instead of choosing suffix 3.
Only the empty-glob branch behaves as claimed, producing suffix 2. -/
theorem fallbackIndex_value_error :
    sliceSuffix "results/table.csv".toList "results/table_2.csv".toList
      = "_2".toList ∧
    pyInt? "_2".toList = none ∧
    fallbackIndex "results/table.csv".toList ["results/table_2.csv".toList]
      = .error .valueError ∧
    fallbackIndex "results/table.csv".toList [] = .ok 2 ∧
    fallbackName "results/table.csv".toList 2 = "results/table_2.csv".toList := by
  exact ⟨rfl, rfl, rfl, rfl, rfl⟩

/-- **C7** (confirmed).  For a single `start()`/`end()` pair, the elapsed
value `end()` returns is identical on every rank and equals the leader's end
timestamp minus the leader's start timestamp: the final broadcast replaces
each rank's locally computed difference with rank 0's `t₂ - t₁`. -/
theorem timerEnd_identical_across_ranks (n : Nat) (t₁ t₂ : ℚ) (r : Fin (n + 1)) :
    timerEnd n t₁ t₂ r = t₂ - t₁ := by
  simp [timerEnd, bcast, timerStartTimes, timerEndTimes]

/-- **C4** (confirmed).  For every schema whose input-mapped column names
are unique, whose output-mapped column names are unique, whose two groups
are disjoint, and which contains no column named `"time"`,
`build_experiment_program` (with the default file names) succeeds, and the
declared column order is the input columns in declaration order, then the
output columns in declaration order, then `"time"` last. -/
theorem build_experiment_program_valid_schema {V : Type}
    (mappings : List (ArgMapping V)) (returnMappings : List (Option String))
    (h₁ : (argColsOf mappings).Nodup)
    (h₂ : (retColsOf returnMappings).Nodup)
    (h₃ : ∀ c ∈ argColsOf mappings, c ∉ retColsOf returnMappings)
    (h₄ : "time" ∉ argColsOf mappings ++ retColsOf returnMappings) :
    build_experiment_program
        (⟨mappings, returnMappings, DEFAULT_LOG_FILE_NAME,
          DEFAULT_TABLE_FILE_NAME⟩ : BuildConfig V)
      = .ok (argColsOf mappings ++ retColsOf returnMappings ++ ["time"]) := by
  have e₁ : (argColsOf mappings).dedup = argColsOf mappings :=
    List.dedup_eq_self.mpr h₁
  have e₂ : (retColsOf returnMappings).dedup = retColsOf returnMappings :=
    List.dedup_eq_self.mpr h₂
  have e₃ : (argColsOf mappings).inter (retColsOf returnMappings) = [] :=
    List.inter_eq_nil_iff_disjoint.mpr h₃
  have f₁ : pyLast4 DEFAULT_LOG_FILE_NAME = ".txt".toList := by decide
  have f₂ : pyLast4 DEFAULT_TABLE_FILE_NAME = ".csv".toList := by decide
  simp [build_experiment_program, e₁, e₂, e₃, h₄, f₁, f₂]

/-- Witness for `build_experiment_program_valid_schema` at a concrete valid
schema: one input column `"lr"`, output columns `["acc"]` (second return
value unmapped). -/
theorem build_experiment_program_valid_schema_witness :
    (argColsOf [(⟨"a", some "lr", Sum.inl false⟩ : ArgMapping ℕ)]).Nodup ∧
    (retColsOf [some "acc", none]).Nodup ∧
    (∀ c ∈ argColsOf [(⟨"a", some "lr", Sum.inl false⟩ : ArgMapping ℕ)],
      c ∉ retColsOf [some "acc", none]) ∧
    ("time" ∉ argColsOf [(⟨"a", some "lr", Sum.inl false⟩ : ArgMapping ℕ)]
        ++ retColsOf [some "acc", none]) ∧
    build_experiment_program
        (⟨[⟨"a", some "lr", Sum.inl false⟩], [some "acc", none],
          DEFAULT_LOG_FILE_NAME, DEFAULT_TABLE_FILE_NAME⟩ : BuildConfig ℕ)
      = .ok ["lr", "acc", "time"] :=
  ⟨by decide, by decide, by decide, by decide,
    build_experiment_program_valid_schema
      [⟨"a", some "lr", Sum.inl false⟩] [some "acc", none]
      (by decide) (by decide) (by decide) (by decide)⟩

/-- **C5** (confirmed).  Whenever a column named `"time"` is declared among
the input or output columns, or the same name appears in both groups,
`build_experiment_program` raises a `ValueError`; the whole validation is a
pure computation preceding any filesystem activity. -/
theorem build_experiment_program_config_error {V : Type} (cfg : BuildConfig V)
    (h : "time" ∈ argColsOf cfg.argumentMappings ++ retColsOf cfg.returnMappings
       ∨ ∃ c, c ∈ argColsOf cfg.argumentMappings
            ∧ c ∈ retColsOf cfg.returnMappings) :
    build_experiment_program cfg = .error .valueError := by
  simp only [build_experiment_program]
  split
  · rfl
  split
  · rfl
  split
  · rfl
  split
  · rfl
  exfalso
  rename_i hinter htime
  rcases h with h | ⟨c, hc₁, hc₂⟩
  · exact htime h
  · exact hinter (List.length_pos.mpr
      (List.ne_nil_of_mem (List.mem_inter_iff.mpr ⟨hc₁, hc₂⟩)))

/-- Witness for `build_experiment_program_config_error`: a schema declaring
the reserved column `"time"` as an input column. -/
theorem build_experiment_program_config_error_witness :
    ("time" ∈ argColsOf [(⟨"a", some "time", Sum.inl false⟩ : ArgMapping ℕ)]
        ++ retColsOf []
      ∨ ∃ c, c ∈ argColsOf [(⟨"a", some "time", Sum.inl false⟩ : ArgMapping ℕ)]
           ∧ c ∈ retColsOf []) ∧
    build_experiment_program
        (⟨[⟨"a", some "time", Sum.inl false⟩], [],
          DEFAULT_LOG_FILE_NAME, DEFAULT_TABLE_FILE_NAME⟩ : BuildConfig ℕ)
      = .error .valueError :=
  ⟨Or.inl (by decide),
    build_experiment_program_config_error
      (⟨[⟨"a", some "time", Sum.inl false⟩], [],
        DEFAULT_LOG_FILE_NAME, DEFAULT_TABLE_FILE_NAME⟩ : BuildConfig ℕ)
      (Or.inl (by decide))⟩

/-- **C9** (confirmed).  `build_experiment_program` raises a `ValueError`
during its validation prefix — hence before the wrapped runner is
constructed — whenever `log_file_name` does not end in `".txt"` or
`table_file_name` does not end in `".csv"` (the code's `s[-4:]` comparison
agrees with the ends-in relation because both suffixes have four
characters). -/
theorem build_experiment_program_filename_error {V : Type} (cfg : BuildConfig V)
    (h : ¬ ".txt".toList <:+ cfg.logFileName
       ∨ ¬ ".csv".toList <:+ cfg.tableFileName) :
    build_experiment_program cfg = .error .valueError := by
  simp only [build_experiment_program]
  split
  · rfl
  split
  · rfl
  split
  · rfl
  split
  · rfl
  split
  · rfl
  split
  · rfl
  exfalso
  rename_i hlog htab
  rw [not_not] at hlog htab
  rcases h with h | h
  · exact h (hlog ▸ List.drop_suffix _ _)
  · exact h (htab ▸ List.drop_suffix _ _)

/-- Witness for `build_experiment_program_filename_error`: a log file name
ending in `".md"`. -/
theorem build_experiment_program_filename_error_witness :
    (¬ ".txt".toList <:+ "log.md".toList
      ∨ ¬ ".csv".toList <:+ "table.csv".toList) ∧
    build_experiment_program
        (⟨[], [], "log.md".toList, "table.csv".toList⟩ : BuildConfig ℕ)
      = .error .valueError :=
  ⟨Or.inl (by decide),
    build_experiment_program_filename_error
      (⟨[], [], "log.md".toList, "table.csv".toList⟩ : BuildConfig ℕ)
      (Or.inl (by decide))⟩

/-- **C6** (confirmed).  Provisioning the same experiment directory twice
(same base directory, same naming fields) from a state where it does not yet
exist: the first call succeeds on every rank and creates the directory; the
second call leaves the filesystem produced by the first call completely
unchanged and raises, on every rank, a `FileExistsError` whose message names
the path. -/
theorem prepare_experiment_dir_second_call_raises (n : Nat) (fs₀ : FS)
    (resultDir : String) (fields : List String)
    (h : fsExists fs₀ (pyPathJoin resultDir (String.intercalate "-" fields))
        = false) :
    (∀ r : Fin n, (prepare_experiment_dir n fs₀ resultDir fields).2 r
        = .ok (pyPathJoin resultDir (String.intercalate "-" fields))) ∧
    (prepare_experiment_dir n (prepare_experiment_dir n fs₀ resultDir fields).1
        resultDir fields).1
      = (prepare_experiment_dir n fs₀ resultDir fields).1 ∧
    (∀ r : Fin n,
      (prepare_experiment_dir n (prepare_experiment_dir n fs₀ resultDir fields).1
          resultDir fields).2 r
        = .error (.fileExists (pyPathJoin resultDir (String.intercalate "-" fields)
            ++ " already exists - cannot proceed safely"))) := by
  have hmk : fsExists
      (fsMkdir fs₀ (pyPathJoin resultDir (String.intercalate "-" fields)))
      (pyPathJoin resultDir (String.intercalate "-" fields)) = true := by
    simp [fsExists, fsMkdir]
  refine ⟨fun r => ?_, ?_, fun r => ?_⟩ <;>
    simp [prepare_experiment_dir, h, hmk]

/-- Witness for `prepare_experiment_dir_second_call_raises`: two processes,
an empty filesystem, base directory `"results"` and naming fields
`["a", "b"]`. -/
theorem prepare_experiment_dir_second_call_raises_witness :
    (fsExists [] (pyPathJoin "results" (String.intercalate "-" ["a", "b"]))
        = false) ∧
    ((∀ r : Fin 2, (prepare_experiment_dir 2 [] "results" ["a", "b"]).2 r
        = .ok (pyPathJoin "results" (String.intercalate "-" ["a", "b"]))) ∧
    (prepare_experiment_dir 2 (prepare_experiment_dir 2 [] "results" ["a", "b"]).1
        "results" ["a", "b"]).1
      = (prepare_experiment_dir 2 [] "results" ["a", "b"]).1 ∧
    (∀ r : Fin 2,
      (prepare_experiment_dir 2 (prepare_experiment_dir 2 [] "results" ["a", "b"]).1
          "results" ["a", "b"]).2 r
        = .error (.fileExists (pyPathJoin "results" (String.intercalate "-" ["a", "b"])
            ++ " already exists - cannot proceed safely")))) :=
  ⟨by decide, prepare_experiment_dir_second_call_raises 2 [] "results" ["a", "b"]
    (by decide)⟩

/-- `add_row` iterated from any starting row list succeeds and appends the
rows in order, provided each row's length equals the column count. -/
theorem addRows_ok {V : Type} (cols : List String) (rows : List (List V))
    (acc : List (List V)) (h : ∀ row ∈ rows, row.length = cols.length) :
    addRows ⟨cols, acc⟩ rows = .ok ⟨cols, acc ++ rows⟩ := by
  induction rows generalizing acc with
  | nil => rw [List.append_nil]; rfl
  | cons r rs ih =>
      have hr : r.length = cols.length := h r (List.mem_cons_self r rs)
      have hrs : ∀ row ∈ rs, row.length = cols.length :=
        fun row hrow => h row (List.mem_cons_of_mem r hrow)
      have hadd : ResultsCSV.add_row (⟨cols, acc⟩ : Table V) r
          = Except.ok ⟨cols, acc ++ [r]⟩ := by
        simp [ResultsCSV.add_row, hr]
      have step : addRows (⟨cols, acc⟩ : Table V) (r :: rs)
          = addRows ⟨cols, acc ++ [r]⟩ rs := by
        show (ResultsCSV.add_row (⟨cols, acc⟩ : Table V) r
            >>= fun df => addRows df rs) = _
        rw [hadd]
        rfl
      rw [step, ih (acc ++ [r]) hrs]
      simp

/-- **C8** (confirmed).  On the leader: creating a fresh `ResultsCSV` at a
non-existing path with columns `C`, appending `N` rows via `add_row`,
calling `save`, and re-opening the same path with columns `C` succeeds and
yields a table with columns `C` and exactly the same `N` rows. -/
theorem resultsCSV_roundtrip {V : Type} (fs₀ : CsvFS V) (path : String)
    (columns : List String) (rows : List (List V))
    (hfresh : csvRead? fs₀ path = none)
    (harity : ∀ row ∈ rows, row.length = columns.length) :
    ResultsCSV.init fs₀ path columns
      = .ok (csvWrite fs₀ path ⟨columns, []⟩, ⟨columns, []⟩) ∧
    addRows (⟨columns, []⟩ : Table V) rows = .ok ⟨columns, rows⟩ ∧
    ResultsCSV.init
        (ResultsCSV.save (csvWrite fs₀ path ⟨columns, []⟩) path ⟨columns, rows⟩)
        path columns
      = .ok (ResultsCSV.save (csvWrite fs₀ path ⟨columns, []⟩) path ⟨columns, rows⟩,
          ⟨columns, rows⟩) := by
  refine ⟨?_, ?_, ?_⟩
  · simp [ResultsCSV.init, hfresh]
  · simpa using addRows_ok columns rows [] harity
  · simp [ResultsCSV.init, ResultsCSV.save, csvRead?, csvWrite, List.find?]

/-- Witness for `resultsCSV_roundtrip`: an empty filesystem, two rows over
columns `["a", "time"]`. -/
theorem resultsCSV_roundtrip_witness :
    (csvRead? ([] : CsvFS ℕ) "results/table.csv" = none) ∧
    ((∀ row ∈ [[1, 2], [3, 4]], List.length row = ["a", "time"].length) ∧
    (ResultsCSV.init ([] : CsvFS ℕ) "results/table.csv" ["a", "time"]
        = .ok (csvWrite [] "results/table.csv" ⟨["a", "time"], []⟩,
            ⟨["a", "time"], []⟩) ∧
      addRows (⟨["a", "time"], []⟩ : Table ℕ) [[1, 2], [3, 4]]
        = .ok ⟨["a", "time"], [[1, 2], [3, 4]]⟩ ∧
      ResultsCSV.init
          (ResultsCSV.save (csvWrite [] "results/table.csv" ⟨["a", "time"], []⟩)
            "results/table.csv" ⟨["a", "time"], [[1, 2], [3, 4]]⟩)
          "results/table.csv" ["a", "time"]
        = .ok (ResultsCSV.save (csvWrite [] "results/table.csv" ⟨["a", "time"], []⟩)
            "results/table.csv" ⟨["a", "time"], [[1, 2], [3, 4]]⟩,
            ⟨["a", "time"], [[1, 2], [3, 4]]⟩))) :=
  ⟨rfl, by decide,
    resultsCSV_roundtrip [] "results/table.csv" ["a", "time"] [[1, 2], [3, 4]]
      rfl (by decide)⟩

/-- **C10** (confirmed).  On the leader, opening an existing table file
whose columns exactly match the declared schema returns the read table and
the filesystem unchanged: no write happens in that branch (and by its type,
`add_row` never touches the filesystem — only `save`, and the creation
branch of `init` on a missing path, write). -/
theorem resultsCSV_open_matching_no_write {V : Type} (fs : CsvFS V)
    (path : String) (columns : List String) (df : Table V)
    (hread : csvRead? fs path = some df) (hcols : df.columns = columns) :
    ResultsCSV.init fs path columns = .ok (fs, df) := by
  simp [ResultsCSV.init, hread, hcols]

/-- Witness for `resultsCSV_open_matching_no_write`: a filesystem holding
one table at `"t.csv"` with matching columns. -/
theorem resultsCSV_open_matching_no_write_witness :
    (csvRead? [("t.csv", (⟨["a", "time"], [[1, 2]]⟩ : Table ℕ))] "t.csv"
        = some ⟨["a", "time"], [[1, 2]]⟩) ∧
    ((⟨["a", "time"], [[1, 2]]⟩ : Table ℕ).columns = ["a", "time"]) ∧
    ResultsCSV.init [("t.csv", (⟨["a", "time"], [[1, 2]]⟩ : Table ℕ))] "t.csv"
        ["a", "time"]
      = .ok ([("t.csv", ⟨["a", "time"], [[1, 2]]⟩)], ⟨["a", "time"], [[1, 2]]⟩) :=
  ⟨rfl, rfl,
    resultsCSV_open_matching_no_write
      [("t.csv", (⟨["a", "time"], [[1, 2]]⟩ : Table ℕ))] "t.csv" ["a", "time"]
      ⟨["a", "time"], [[1, 2]]⟩ rfl rfl⟩
